import Mathlib

/-!
# CloudCommerce submission pipeline: a shallow embedding

This file embeds the computational core of the CloudCommerce submission
pipeline in Lean 4 and proves properties of it:

* `src/lib/crew.ts` — `scrapeSimilarItems` (price extraction, the
  recommended-price aggregate) and `findArbitrage` (the arbitrage filter);
* `src/unnamed/part_013` — the `POST` route handler: credit check,
  CrewAI / direct-LLM analysis, scraping, listing generation, CSV export,
  credit debit, submission insert, and the response object.

Network fetching and HTML parsing are outside the embedding: the scraper is
modelled from the point where per-site (title, price-string) pairs have been
extracted, and every external call of the route handler is an oracle input
(an `Except` value standing for the settled promise).  JavaScript `number`
is modelled as `ℚ`.
-/

namespace CloudCommerce

/-! ## JavaScript primitives used by the source -/

/-- The digits prefix of a character list: `takeDigits s = (ds, rest)` where
`ds` is the longest prefix of decimal digits. -/
def takeDigits : List Char → List Char × List Char
  | [] => ([], [])
  | c :: cs =>
    if c.isDigit then
      let (d, r) := takeDigits cs
      (c :: d, r)
    else ([], c :: cs)

/-- Decimal value of a digit list (most significant first). -/
def digitsToNat (ds : List Char) : Nat :=
  ds.foldl (fun a c => 10 * a + (c.toNat - 48)) 0

/-- Syntactic phase of JavaScript `parseFloat` on the decimal fragment the
scraper meets: skip leading whitespace, optional sign, integer digits,
optional `.` and fraction digits.  Returns the sign, the integer digits
and the fraction digits, or `none` — modelling `NaN` — when there is no
digit at all.  Exponent notation and `Infinity` are not modelled; no price
string in this development contains them. -/
def parseFloatParts (s : String) : Option (Bool × List Char × List Char) :=
  let cs := s.data.dropWhile (fun c => c = ' ' ∨ c = '\t' ∨ c = '\n' ∨ c = '\r')
  let signed : Bool × List Char :=
    match cs with
    | '-' :: r => (true, r)
    | '+' :: r => (false, r)
    | _ => (false, cs)
  let (ip, rest) := takeDigits signed.2
  let fp : List Char :=
    match rest with
    | '.' :: r => (takeDigits r).1
    | _ => []
  if ip = [] ∧ fp = [] then none else some (signed.1, ip, fp)

/-- Numeric value of the parsed sign and digit lists. -/
def ratOfParts (p : Bool × List Char × List Char) : ℚ :=
  let v : ℚ := (digitsToNat p.2.1 : ℚ) + (digitsToNat p.2.2 : ℚ) / (10 ^ p.2.2.length : ℚ)
  if p.1 then -v else v

/-- Model of JavaScript `parseFloat`: the numeric value of the parsed
decimal fragment, `none` for `NaN`. -/
def parseFloat (s : String) : Option ℚ :=
  (parseFloatParts s).map ratOfParts

/-- JavaScript `String.prototype.replace` with the literal pattern `$`:
removes the first occurrence of `$` only (crew.ts uses
`r.price.replace(&#36;)` before `parseFloat`). -/
def stripFirstDollar : List Char → List Char
  | [] => []
  | c :: cs => if c = '$' then cs else c :: stripFirstDollar cs

/-- `parseFloat(price.replace(..., &#36; removed once))`, as both crew.ts call
sites perform it. -/
def parsePrice (price : String) : Option ℚ :=
  parseFloat ⟨stripFirstDollar price.data⟩

/-- JavaScript truthiness of an optional string: `undefined` and the empty
string are falsy. -/
def jsTruthyStr : Option String → Bool
  | none => false
  | some s => !(s = "")

/-! ## `src/lib/crew.ts` — scraper and arbitrage filter -/

/-- One scraped comparable as pushed onto `results` in `scrapeSimilarItems`
(crew.ts lines 36-40): the site label, the extracted title and the raw
price *string*. -/
structure RawItem where
  site : String
  title : String
  price : String
deriving DecidableEq, Repr

/-- The object returned by `scrapeSimilarItems` (crew.ts line 49): keys
`similarItems` and `recommendedPrice` only. -/
structure ScrapeResult where
  similarItems : List RawItem
  recommendedPrice : ℚ
deriving DecidableEq, Repr

/-- Per-site extraction loop body (crew.ts lines 33-41): the first five
(title, price) pairs found on the page become `RawItem`s for that site. -/
def scrapePerSite (site : String) (items : List (String × String)) : List RawItem :=
  (items.take 5).map (fun tp => ⟨site, tp.1, tp.2⟩)

/-- The prices entering the average (crew.ts line 46):
`results.map(r => parseFloat(r.price.replace(...)) || 0).filter(p => p > 0)`.
The `|| 0` turns `NaN` into `0`, which the `> 0` filter then drops. -/
def aggregatePrices (results : List RawItem) : List ℚ :=
  (results.map (fun r => (parsePrice r.price).getD 0)).filter (fun p => 0 < p)

/-- `scrapeSimilarItems`, modelled from the point where per-site
(title, price-string) pairs have been extracted from the fetched pages
(`siteData` lists them per site, in the fixed site order of the loop).
Network failures for a site leave that site out of `siteData`, matching the
per-site `try`/`catch`.  The average (crew.ts lines 45-47) is
`prices.reduce((a,b)=>a+b,0)/prices.length || 0`: division by zero gives
`NaN`, which `|| 0` turns into `0`. -/
def scrapeSimilarItems (siteData : List (String × List (String × String))) : ScrapeResult :=
  let results := siteData.flatMap (fun sd => scrapePerSite sd.1 sd.2)
  let prices := aggregatePrices results
  let avgPrice : ℚ := if prices.length = 0 then 0 else prices.sum / prices.length
  ⟨results, avgPrice⟩

/-- The comparison of crew.ts line 56, with the hardcoded ratio `0.7`:
an item whose parsed price is below `recommendedPrice * 0.7` is flagged.
A price that parses to `NaN` compares false. -/
def arbFlag (price : String) (recommendedPrice : ℚ) : Bool :=
  match parsePrice price with
  | some p => decide (p < recommendedPrice * (7 / 10))
  | none => false

/-- The filter step of `findArbitrage` (crew.ts lines 55-57) applied to a
scrape result. -/
def findArbitrageFrom (data : ScrapeResult) : List RawItem :=
  data.similarItems.filter (fun item => arbFlag item.price data.recommendedPrice)

/-- `findArbitrage` (crew.ts lines 54-58): scrape the query again, then
filter the scraped items by the `0.7` comparison.  Like
`scrapeSimilarItems` it is modelled from the extracted per-site data. -/
def findArbitrage (siteData : List (String × List (String × String))) : List RawItem :=
  findArbitrageFrom (scrapeSimilarItems siteData)

/-- The arbitrage filter generalised over the threshold ratio.  The source
hardcodes `0.7` (crew.ts line 56); `findArbitrageWith (7/10)` recovers it,
as the theorem about claim C6 records. -/
def findArbitrageWith (t : ℚ) (data : ScrapeResult) : List RawItem :=
  data.similarItems.filter (fun item =>
    match parsePrice item.price with
    | some p => decide (p < data.recommendedPrice * t)
    | none => false)

/-! ## `src/unnamed/part_013` — the route handler `POST` -/

/-- The columns selected from the `users` row (part_013 line 18):
`credits, sub_status`. -/
structure UserRow where
  credits : Int
  sub_status : String
deriving DecidableEq, Repr

/-- One per-marketplace listing draft as consumed by the CSV template
(part_013 lines 51-53): the fields interpolated into the row.  The `price`
field is kept as the string the template renders. -/
structure Draft where
  title : String
  description : String
  price : String
  condition : String
deriving DecidableEq, Repr

/-- The CSV row template of part_013 line 52:
`platform,"title","description",&#36;price,"condition"`.  Title, description
and condition are wrapped in double quotes with no escaping of embedded
quote or delimiter characters; platform and price are unquoted. -/
def csvRow (platform : String) (d : Draft) : String :=
  platform ++ ",\"" ++ d.title ++ "\",\"" ++ d.description ++ "\",$" ++
    d.price ++ ",\"" ++ d.condition ++ "\""

/-- JavaScript `Array.prototype.join` with separator `\n`
(part_013 line 53). -/
def joinNl : List String → String
  | [] => ""
  | [s] => s
  | s :: r :: rest => s ++ "\n" ++ joinNl (r :: rest)

/-- The fixed CSV header literal of part_013 line 51. -/
def csvHeader : String :=
  "Platform,Title,Description,Price,Condition"

/-- The CSV template of part_013 lines 51-53: the fixed header, a newline,
then one row per entry of `Object.entries(listings)` — i.e. in the
*insertion order* of the `listings` object, which is modelled as an
association list in that order. -/
def generateCSV (listings : List (String × Draft)) : String :=
  csvHeader ++ "\n" ++ joinNl (listings.map (fun e => csvRow e.1 e.2))

/-- The JavaScript property read `scraped.arbitrage` (part_013 line 69).
The object literal `scrapeSimilarItems` returns (crew.ts line 49) has only
the keys `similarItems` and `recommendedPrice`, so the read yields
`undefined`, modelled as `none`. -/
def ScrapeResult.arbitrageField (_ : ScrapeResult) : Option (List RawItem) :=
  none

/-- External effects the handler can perform, in the order its source lines
execute them.  `findArbitrageCall` names the `findArbitrage` function of
crew.ts, which the handler imports nothing from and never invokes. -/
inductive ExtCall where
  | crewAI
  | analyzeItem
  | scrape
  | generateListings
  | debit
  | insertSubmission
  | findArbitrageCall
deriving DecidableEq, Repr

/-- The response values the handler can produce (ignoring the 401 for a
missing Clerk user, which precedes everything modelled here).  `ok` carries
the JSON body of part_013 line 69. -/
inductive ApiResponse where
  | insufficientCredits
  | ok (listings : List (String × Draft)) (csv : String)
      (recommendedPrice : ℚ) (arbitrage : List RawItem)
  | processingFailed
deriving DecidableEq, Repr

/-- The oracle inputs of one run: the `users` row the Supabase query
returns (`none` when no row matches), the settled promises of the three
fallible external calls, and the per-site data the scraper extracts.
`crew` carries the `analysis` field of the CrewAI result, absent when the
result object lacks it. -/
structure PipelineInput where
  userRow : Option UserRow
  crew : Except Unit (Option String)
  analyze : Except Unit String
  siteData : List (String × List (String × String))
  gen : Except Unit (List (String × Draft))
deriving Repr

/-- The observable outcome of one run: the response, the external calls
performed in order, and the final credits of the user row (unchanged when
no debit update ran; `none` when there was no row). -/
structure RunResult where
  response : ApiResponse
  calls : List ExtCall
  finalCredits : Option Int
deriving DecidableEq, Repr

/-- The credit gate condition of part_013 line 19:
`userData?.credits < 1 && userData?.sub_status !== 'unlimited'`.
When the row is `null`, optional chaining yields `undefined`, and
`undefined < 1` is false, so the gate does not fire. -/
def creditGateFires : Option UserRow → Bool
  | none => false
  | some u => decide (u.credits < 1) && !(u.sub_status = "unlimited")

/-- The debit guard of part_013 line 56: `userData?.credits > 0`
(false when the row is `null`). -/
def debitGuard : Option UserRow → Bool
  | none => false
  | some u => decide (0 < u.credits)

/-- `part_013` lines 23-69, after the credit gate has passed: the `try`
block.  Each `await` of a fallible call either settles (`Except.ok`) or
rejects, in which case control reaches the `catch` (lines 71-74) and a 500
response is returned with no further effects.  `scrapeSimilarItems` never
rejects (its per-site failures are caught inside it). -/
def runTryBlock (inp : PipelineInput) : RunResult :=
  let credits0 := inp.userRow.map (fun u => u.credits)
  match inp.crew with
  | .error _ => ⟨.processingFailed, [.crewAI], credits0⟩
  | .ok crewAnalysis =>
    -- line 41: `crewResult.analysis || await analyzeItem(...)`
    let afterAnalysis : Except (List ExtCall) (String × List ExtCall) :=
      if jsTruthyStr crewAnalysis then
        .ok (crewAnalysis.getD "", [.crewAI])
      else
        match inp.analyze with
        | .error _ => .error [.crewAI, .analyzeItem]
        | .ok a => .ok (a, [.crewAI, .analyzeItem])
    match afterAnalysis with
    | .error calls => ⟨.processingFailed, calls, credits0⟩
    | .ok (_, calls) =>
      let scraped := scrapeSimilarItems inp.siteData
      let calls := calls ++ [.scrape]
      match inp.gen with
      | .error _ => ⟨.processingFailed, calls ++ [.generateListings], credits0⟩
      | .ok listings =>
        let calls := calls ++ [.generateListings]
        let csv := generateCSV listings
        -- lines 55-58: deduct credit iff the row read at line 18 had credits > 0
        let (calls, finalCredits) :=
          if debitGuard inp.userRow then
            (calls ++ [.debit], credits0.map (fun c => c - 1))
          else (calls, credits0)
        let calls := calls ++ [.insertSubmission]
        -- line 69: `arbitrage: scraped.arbitrage || []`
        let arb := (scraped.arbitrageField).getD []
        ⟨.ok listings csv scraped.recommendedPrice arb, calls, finalCredits⟩

/-- The handler `POST` of part_013 (lines 13-75), from the credit check on:
if the gate fires, respond 402 with no calls and no credit change;
otherwise run the `try` block. -/
def runPOST (inp : PipelineInput) : RunResult :=
  if creditGateFires inp.userRow then
    ⟨.insufficientCredits, [], inp.userRow.map (fun u => u.credits)⟩
  else
    runTryBlock inp

/-! ## Derived predicates used by the theorems -/

/-- The vision branch of the run fails: either the CrewAI call rejects, or
its result has no usable `analysis` field and the direct `analyzeItem`
fallback rejects (part_013 lines 38-41). -/
def visionFails (inp : PipelineInput) : Prop :=
  inp.crew = .error () ∨
    ∃ c, inp.crew = .ok c ∧ jsTruthyStr c = false ∧ inp.analyze = .error ()

/-- Listing generation fails: `generateListings` rejects
(part_013 line 48). -/
def genFails (inp : PipelineInput) : Prop :=
  inp.gen = .error ()

/-- The credits of the user row as read at the credit check. -/
def initialCredits (inp : PipelineInput) : Option Int :=
  inp.userRow.map (fun u => u.credits)

/-! ## Helper lemmas -/

theorem parsePrice_of_parts (s : String) (p : Bool × List Char × List Char)
    (h : parseFloatParts ⟨stripFirstDollar s.data⟩ = some p) :
    parsePrice s = some (ratOfParts p) := by
  simp [parsePrice, parseFloat, h]

theorem parsePrice_none_of_parts (s : String)
    (h : parseFloatParts ⟨stripFirstDollar s.data⟩ = none) :
    parsePrice s = none := by
  simp [parsePrice, parseFloat, h]

theorem ratOfParts_nat (ip : List Char) (n : Nat) (hd : digitsToNat ip = n) :
    ratOfParts (false, ip, []) = (n : ℚ) := by
  have h0 : digitsToNat [] = 0 := rfl
  simp [ratOfParts, hd, h0]

theorem ratOfParts_neg_nat (ip : List Char) (n : Nat) (hd : digitsToNat ip = n) :
    ratOfParts (true, ip, []) = -(n : ℚ) := by
  have h0 : digitsToNat [] = 0 := rfl
  simp [ratOfParts, hd, h0]

theorem parsePrice_100 : parsePrice "$100" = some (100 : ℚ) := by
  rw [parsePrice_of_parts "$100" (false, ['1', '0', '0'], []) (by decide),
    ratOfParts_nat _ 100 (by decide)]
  norm_num

theorem parsePrice_15 : parsePrice "$15" = some (15 : ℚ) := by
  rw [parsePrice_of_parts "$15" (false, ['1', '5'], []) (by decide),
    ratOfParts_nat _ 15 (by decide)]
  norm_num

theorem parsePrice_40 : parsePrice "$40" = some (40 : ℚ) := by
  rw [parsePrice_of_parts "$40" (false, ['4', '0'], []) (by decide),
    ratOfParts_nat _ 40 (by decide)]
  norm_num

theorem parsePrice_41 : parsePrice "$41" = some (41 : ℚ) := by
  rw [parsePrice_of_parts "$41" (false, ['4', '1'], []) (by decide),
    ratOfParts_nat _ 41 (by decide)]
  norm_num

theorem parsePrice_10 : parsePrice "$10" = some (10 : ℚ) := by
  rw [parsePrice_of_parts "$10" (false, ['1', '0'], []) (by decide),
    ratOfParts_nat _ 10 (by decide)]
  norm_num

theorem parsePrice_na : parsePrice "N/A" = none :=
  parsePrice_none_of_parts "N/A" (by decide)

theorem parsePrice_neg5 : parsePrice "-5" = some (-(5 : ℚ)) := by
  rw [parsePrice_of_parts "-5" (true, ['5'], []) (by decide),
    ratOfParts_neg_nat _ 5 (by decide)]
  norm_num

/-- The Scenario B comparables batch of the spec, as per-site scrape
data. -/
def scenarioB : List (String × List (String × String)) :=
  [("ebay", [("iPhone 12", "$100"), ("iPhone 12 case", "$15")])]

theorem scenarioB_recommendedPrice :
    (scrapeSimilarItems scenarioB).recommendedPrice = (57.5 : ℚ) := by
  norm_num [scenarioB, scrapeSimilarItems, aggregatePrices, scrapePerSite,
    parsePrice_100, parsePrice_15]

theorem recommendedPrice_nonneg (siteData : List (String × List (String × String))) :
    0 ≤ (scrapeSimilarItems siteData).recommendedPrice := by
  simp only [scrapeSimilarItems]
  split
  · exact le_refl 0
  · apply div_nonneg
    · apply List.sum_nonneg
      intro p hp
      have := List.of_mem_filter hp
      have h01 : (0 < p) := by simpa using this
      exact le_of_lt h01
    · exact_mod_cast Nat.zero_le _

theorem mem_findArbitrageWith {t : ℚ} {data : ScrapeResult} {x : RawItem} :
    x ∈ findArbitrageWith t data ↔
      x ∈ data.similarItems ∧
        ∃ p, parsePrice x.price = some p ∧ p < data.recommendedPrice * t := by
  simp only [findArbitrageWith, List.mem_filter]
  constructor
  · rintro ⟨hmem, hflag⟩
    refine ⟨hmem, ?_⟩
    rcases hparse : parsePrice x.price with _ | p
    · rw [hparse] at hflag; exact absurd hflag (by simp)
    · rw [hparse] at hflag
      exact ⟨p, rfl, by simpa using hflag⟩
  · rintro ⟨hmem, p, hparse, hlt⟩
    refine ⟨hmem, ?_⟩
    rw [hparse]
    simpa using hlt

theorem findArbitrage_eq_with :
    ∀ siteData, findArbitrage siteData =
      findArbitrageWith (7 / 10) (scrapeSimilarItems siteData) := by
  intro siteData
  simp only [findArbitrage, findArbitrageFrom, findArbitrageWith, arbFlag]

/-! ## Claim theorems -/

/-- C2.  For every Submission whose user row has insufficient credit
(`credits < 1`) and no unlimited-plan flag, the handler responds 402
before any external work: no CrewAI, vision, scraper, listing, debit or
insert call is made, and the credits are unchanged. -/
theorem credit_denied_no_work_no_debit (inp : PipelineInput) (u : UserRow)
    (hrow : inp.userRow = some u) (hc : u.credits < 1)
    (hs : u.sub_status ≠ "unlimited") :
    (runPOST inp).response = .insufficientCredits ∧
      (runPOST inp).calls = [] ∧
      (runPOST inp).finalCredits = some u.credits := by
  have hgate : creditGateFires (some u) = true := by
    simp [creditGateFires, hc, hs]
  simp [runPOST, hrow, hgate]

/-- Witness for C2: a user row with 0 credits on a non-unlimited plan is
denied with no calls and unchanged credits. -/
theorem credit_denied_no_work_no_debit_witness :
    (runPOST ⟨some ⟨0, "free"⟩, .ok none, .ok "a", [], .ok []⟩).response =
        .insufficientCredits ∧
      (runPOST ⟨some ⟨0, "free"⟩, .ok none, .ok "a", [], .ok []⟩).calls = [] ∧
      (runPOST ⟨some ⟨0, "free"⟩, .ok none, .ok "a", [], .ok []⟩).finalCredits =
        some 0 :=
  credit_denied_no_work_no_debit _ ⟨0, "free"⟩ rfl (by decide) (by decide)

/-- C5.  Scenario B: for the comparables `[("iPhone 12", "&#36;100"),
("iPhone 12 case", "&#36;15")]` the computed recommended price is `57.5`;
with the hardcoded ratio `0.7` the cutoff is `57.5 * 0.7 = 40.25`, so the
flag comparison of crew.ts line 56 flags a price of `40` and does not flag
a price of `41`. -/
theorem scenario_b_aggregate_and_cutoff :
    (scrapeSimilarItems scenarioB).recommendedPrice = (57.5 : ℚ) ∧
      (57.5 : ℚ) * (7 / 10) = (40.25 : ℚ) ∧
      arbFlag "$40" (57.5 : ℚ) = true ∧
      arbFlag "$41" (57.5 : ℚ) = false := by
  refine ⟨scenarioB_recommendedPrice, by norm_num, ?_, ?_⟩
  · norm_num [arbFlag, parsePrice_40]
  · norm_num [arbFlag, parsePrice_41]

/-- C7 counterexample.  A scraped item whose price string has no parseable
numeric value is returned in `similarItems` with its raw price string: it
is not dropped from the returned list, so not every returned comparable has
a numeric price greater than 0. -/
theorem unparseable_price_kept_in_results :
    (scrapeSimilarItems [("ebay", [("thing", "N/A")])]).similarItems =
        [⟨"ebay", "thing", "N/A"⟩] ∧
      parsePrice "N/A" = none := by
  exact ⟨by simp [scrapeSimilarItems, scrapePerSite], parsePrice_na⟩

/-- C7 amended.  Every price entering the recommended-price aggregate is
positive (unparseable prices become 0 via `|| 0` and are filtered out, with
no error raised), but the dropping happens only in the aggregate: the
returned comparables list keeps at least as many entries as there are
aggregated prices, each with its raw price string. -/
theorem aggregate_prices_positive (siteData : List (String × List (String × String))) :
    (∀ p ∈ aggregatePrices (scrapeSimilarItems siteData).similarItems, 0 < p) ∧
      (aggregatePrices (scrapeSimilarItems siteData).similarItems).length ≤
        (scrapeSimilarItems siteData).similarItems.length := by
  constructor
  · intro p hp
    have := List.of_mem_filter hp
    simpa using this
  · calc (aggregatePrices (scrapeSimilarItems siteData).similarItems).length
        ≤ ((scrapeSimilarItems siteData).similarItems.map
            (fun r => (parsePrice r.price).getD 0)).length :=
          List.length_filter_le _ _
      _ = (scrapeSimilarItems siteData).similarItems.length := List.length_map _ _

/-- Witness for C7 amended: on a concrete batch with one valid and one
invalid price, the aggregate holds one positive price and the returned
list holds both entries. -/
theorem aggregate_prices_positive_witness :
    (∀ p ∈ aggregatePrices
        (scrapeSimilarItems [("ebay", [("a", "$10"), ("b", "N/A")])]).similarItems,
        0 < p) ∧
      (aggregatePrices
          (scrapeSimilarItems [("ebay", [("a", "$10"), ("b", "N/A")])]).similarItems).length ≤
        (scrapeSimilarItems [("ebay", [("a", "$10"), ("b", "N/A")])]).similarItems.length :=
  aggregate_prices_positive [("ebay", [("a", "$10"), ("b", "N/A")])]

/-- C4 counterexample.  With one comparable whose price parses negative,
no price qualifies for the aggregate (so the PriceAggregate is absent and
the code defaults `recommendedPrice` to 0), yet `findArbitrage` flags the
comparable: the output is not the empty list when the aggregate is
absent. -/
theorem arbitrage_nonempty_with_absent_aggregate :
    aggregatePrices
        (scrapeSimilarItems [("ebay", [("junk", "-5")])]).similarItems = [] ∧
      (scrapeSimilarItems [("ebay", [("junk", "-5")])]).recommendedPrice = 0 ∧
      findArbitrage [("ebay", [("junk", "-5")])] = [⟨"ebay", "junk", "-5"⟩] := by
  refine ⟨?_, ?_, ?_⟩
  · norm_num [aggregatePrices, scrapeSimilarItems, scrapePerSite, parsePrice_neg5]
  · norm_num [scrapeSimilarItems, aggregatePrices, scrapePerSite, parsePrice_neg5]
  · norm_num [findArbitrage, findArbitrageFrom, arbFlag, scrapeSimilarItems,
      aggregatePrices, scrapePerSite, parsePrice_neg5]

/-- C4 amended.  The detection step is a pure filter with the hardcoded
ratio `0.7`: a comparable is flagged exactly when its price parses to a
number strictly below `recommendedPrice * 0.7` (an unparseable price is
never flagged), and it never fails.  When the aggregate is absent (no
positive parseable price, so `recommendedPrice` defaults to 0) the output
is empty provided no comparable parses to a negative price;
`findArbitrage` itself takes a query and re-scrapes rather than receiving
comparables and a threshold as inputs. -/
theorem arbitrage_filter_characterization (siteData : List (String × List (String × String))) :
    (∀ x, x ∈ findArbitrage siteData ↔
        x ∈ (scrapeSimilarItems siteData).similarItems ∧
          ∃ p, parsePrice x.price = some p ∧
            p < (scrapeSimilarItems siteData).recommendedPrice * (7 / 10)) ∧
      (aggregatePrices (scrapeSimilarItems siteData).similarItems = [] →
        (∀ x ∈ (scrapeSimilarItems siteData).similarItems,
          ∀ p, parsePrice x.price = some p → 0 ≤ p) →
        findArbitrage siteData = []) := by
  constructor
  · intro x
    rw [findArbitrage_eq_with]
    exact mem_findArbitrageWith
  · intro hagg hnn
    have hrec : (scrapeSimilarItems siteData).recommendedPrice = 0 := by
      simp only [scrapeSimilarItems] at hagg ⊢
      simp [hagg]
    rw [List.eq_nil_iff_forall_not_mem]
    intro x hx
    rw [findArbitrage_eq_with] at hx
    rcases mem_findArbitrageWith.mp hx with ⟨hmem, p, hparse, hlt⟩
    rw [hrec] at hlt
    have h0 : (0 : ℚ) ≤ p := hnn x hmem p hparse
    simp only [zero_mul] at hlt
    exact absurd hlt (not_lt.mpr h0)

/-- Witness for C4 amended: on the Scenario B comparables, the cheap case
is flagged, and the absent-aggregate clause applies vacuously on an empty
batch. -/
theorem arbitrage_filter_characterization_witness :
    (⟨"ebay", "iPhone 12 case", "$15"⟩ : RawItem) ∈ findArbitrage scenarioB ∧
      findArbitrage ([] : List (String × List (String × String))) = [] := by
  constructor
  · apply ((arbitrage_filter_characterization scenarioB).1 _).mpr
    refine ⟨?_, 15, parsePrice_15, ?_⟩
    · simp [scenarioB, scrapeSimilarItems, scrapePerSite]
    · rw [scenarioB_recommendedPrice]; norm_num
  · exact (arbitrage_filter_characterization []).2
      (by simp [scrapeSimilarItems, aggregatePrices])
      (by intro x hx; simp [scrapeSimilarItems] at hx)

/-- C6.  The arbitrage comparison generalised over the threshold ratio is
monotone: for the aggregate the scraper computes (which is never
negative), lowering the ratio shrinks or holds constant the flagged set;
the ratio `0.7` hardcoded at crew.ts line 56 recovers `findArbitrage`. -/
theorem arbitrage_threshold_monotone (siteData : List (String × List (String × String)))
    (t t' : ℚ) (h : t' ≤ t) :
    findArbitrage siteData = findArbitrageWith (7 / 10) (scrapeSimilarItems siteData) ∧
      ∀ x, x ∈ findArbitrageWith t' (scrapeSimilarItems siteData) →
        x ∈ findArbitrageWith t (scrapeSimilarItems siteData) := by
  refine ⟨findArbitrage_eq_with siteData, ?_⟩
  intro x hx
  rcases mem_findArbitrageWith.mp hx with ⟨hmem, p, hparse, hlt⟩
  refine mem_findArbitrageWith.mpr ⟨hmem, p, hparse, lt_of_lt_of_le hlt ?_⟩
  exact mul_le_mul_of_nonneg_left h (recommendedPrice_nonneg siteData)

/-- Witness for C6: on the Scenario B batch, every item flagged at ratio
0.5 is flagged at ratio 0.7. -/
theorem arbitrage_threshold_monotone_witness :
    findArbitrage scenarioB =
        findArbitrageWith (7 / 10) (scrapeSimilarItems scenarioB) ∧
      ∀ x, x ∈ findArbitrageWith (1 / 2) (scrapeSimilarItems scenarioB) →
        x ∈ findArbitrageWith (7 / 10) (scrapeSimilarItems scenarioB) :=
  arbitrage_threshold_monotone scenarioB (7 / 10) (1 / 2) (by norm_num)

/-- C1 counterexample.  A run by an unlimited-plan user whose credit
balance is 0 passes the credit gate, reaches the success response, and
commits no debit at all: a run that reaches Completed does not always
commit exactly one debit. -/
theorem completed_run_without_debit :
    ((runPOST ⟨some ⟨0, "unlimited"⟩, .ok (some "a"), .ok "a", [],
        .ok [("ebay", ⟨"t", "d", "9", "good"⟩)]⟩).response ≠ .processingFailed) ∧
      ((runPOST ⟨some ⟨0, "unlimited"⟩, .ok (some "a"), .ok "a", [],
          .ok [("ebay", ⟨"t", "d", "9", "good"⟩)]⟩).response ≠ .insufficientCredits) ∧
      (runPOST ⟨some ⟨0, "unlimited"⟩, .ok (some "a"), .ok "a", [],
          .ok [("ebay", ⟨"t", "d", "9", "good"⟩)]⟩).calls.count .debit = 0 := by
  refine ⟨?_, ?_, ?_⟩ <;>
    simp [runPOST, runTryBlock, creditGateFires, debitGuard, jsTruthyStr,
      List.count_cons, List.count_nil]

/-- C1 amended.  Every run performs the debit update at most once — the
update is keyed by the user id alone, with no Submission-id idempotency
key in the source — and a run that reaches the success response commits
exactly one debit of exactly one credit if and only if the user row read
at the credit check had a positive balance (so an unlimited-plan user
with a non-positive balance completes with no debit). -/
theorem debit_at_most_once_and_guarded (inp : PipelineInput) :
    (runPOST inp).calls.count .debit ≤ 1 ∧
      ∀ ls csv rp arb, (runPOST inp).response = .ok ls csv rp arb →
        (((runPOST inp).calls.count .debit = 1 ∧
            (runPOST inp).finalCredits = inp.userRow.map (fun u => u.credits - 1)) ↔
          debitGuard inp.userRow = true) := by
  rcases inp with ⟨ur, crew, analyze, sd, gen⟩
  by_cases hgate : creditGateFires ur = true
  · simp [runPOST, hgate]
  · rcases crew with _ | c
    · simp [runPOST, runTryBlock, hgate]
    · by_cases htr : jsTruthyStr c = true
      · rcases gen with _ | ls
        · simp [runPOST, runTryBlock, hgate, htr]
        · by_cases hdg : debitGuard ur = true
          · rcases ur with _ | u
            · simp [debitGuard] at hdg
            · refine ⟨?_, ?_⟩ <;>
                simp [runPOST, runTryBlock, hgate, htr, hdg,
                  List.count_append, List.count_cons, List.count_nil]
          · simp [runPOST, runTryBlock, hgate, htr, hdg,
              List.count_append, List.count_cons, List.count_nil]
      · rcases analyze with _ | a
        · simp [runPOST, runTryBlock, hgate, htr]
        · rcases gen with _ | ls
          · simp [runPOST, runTryBlock, hgate, htr]
          · by_cases hdg : debitGuard ur = true
            · rcases ur with _ | u
              · simp [debitGuard] at hdg
              · refine ⟨?_, ?_⟩ <;>
                  simp [runPOST, runTryBlock, hgate, htr, hdg,
                    List.count_append, List.count_cons, List.count_nil]
            · simp [runPOST, runTryBlock, hgate, htr, hdg,
                List.count_append, List.count_cons, List.count_nil]

/-- Witness for C1 amended: a user with 3 credits completes, the debit
runs exactly once and one credit is deducted. -/
theorem debit_at_most_once_and_guarded_witness :
    (runPOST ⟨some ⟨3, "free"⟩, .ok (some "a"), .ok "a", [],
        .ok [("ebay", ⟨"t", "d", "9", "good"⟩)]⟩).calls.count .debit ≤ 1 ∧
      (runPOST ⟨some ⟨3, "free"⟩, .ok (some "a"), .ok "a", [],
          .ok [("ebay", ⟨"t", "d", "9", "good"⟩)]⟩).calls.count .debit = 1 ∧
      (runPOST ⟨some ⟨3, "free"⟩, .ok (some "a"), .ok "a", [],
          .ok [("ebay", ⟨"t", "d", "9", "good"⟩)]⟩).finalCredits = some 2 := by
  have h := debit_at_most_once_and_guarded
    ⟨some ⟨3, "free"⟩, .ok (some "a"), .ok "a", [],
      .ok [("ebay", ⟨"t", "d", "9", "good"⟩)]⟩
  refine ⟨h.1, ?_⟩
  have h2 := (h.2 [("ebay", ⟨"t", "d", "9", "good"⟩)]
      (generateCSV [("ebay", ⟨"t", "d", "9", "good"⟩)])
      (scrapeSimilarItems []).recommendedPrice []
      (by simp [runPOST, runTryBlock, creditGateFires, jsTruthyStr, debitGuard,
        ScrapeResult.arbitrageField])).mpr (by simp [debitGuard])
  exact ⟨h2.1, by simpa using h2.2⟩

/-- C3.  When the vision branch (CrewAI plus the direct fallback) or
listing generation fails, the handler reaches the catch block: the
response is the 500 failure, the credit balance is unchanged and no debit
ran; moreover a debit call happens only in runs whose `generateListings`
call succeeded. -/
theorem failure_leaves_credits_unchanged (inp : PipelineInput)
    (hgate : creditGateFires inp.userRow = false)
    (hfail : visionFails inp ∨ genFails inp) :
    ((runPOST inp).response = .processingFailed ∧
        (runPOST inp).finalCredits = initialCredits inp ∧
        .debit ∉ (runPOST inp).calls) ∧
      (.debit ∈ (runPOST inp).calls → ∃ ls, inp.gen = .ok ls) := by
  rcases inp with ⟨ur, crew, analyze, sd, gen⟩
  rcases hfail with hv | hg
  · rcases hv with hc | ⟨c, hc, htr, ha⟩
    · cases hc
      simp [runPOST, runTryBlock, hgate, initialCredits]
    · cases hc
      cases ha
      simp [runPOST, runTryBlock, hgate, htr, initialCredits]
  · cases hg
    rcases crew with _ | c
    · simp [runPOST, runTryBlock, hgate, initialCredits]
    · by_cases htr : jsTruthyStr c = true
      · simp [runPOST, runTryBlock, hgate, htr, initialCredits]
      · rcases analyze with _ | a
        · simp [runPOST, runTryBlock, hgate, htr, initialCredits]
        · simp [runPOST, runTryBlock, hgate, htr, initialCredits]

/-- Witness for C3: a run whose `generateListings` call rejects fails
with credits unchanged and no debit. -/
theorem failure_leaves_credits_unchanged_witness :
    ((runPOST ⟨some ⟨3, "free"⟩, .ok (some "a"), .ok "a", [], .error ()⟩).response =
          .processingFailed ∧
        (runPOST ⟨some ⟨3, "free"⟩, .ok (some "a"), .ok "a", [], .error ()⟩).finalCredits =
          initialCredits ⟨some ⟨3, "free"⟩, .ok (some "a"), .ok "a", [], .error ()⟩ ∧
        .debit ∉ (runPOST ⟨some ⟨3, "free"⟩, .ok (some "a"), .ok "a", [], .error ()⟩).calls) ∧
      (.debit ∈ (runPOST ⟨some ⟨3, "free"⟩, .ok (some "a"), .ok "a", [], .error ()⟩).calls →
        ∃ ls, (Except.error () : Except Unit (List (String × Draft))) = .ok ls) :=
  failure_leaves_credits_unchanged
    ⟨some ⟨3, "free"⟩, .ok (some "a"), .ok "a", [], .error ()⟩
    (by simp [creditGateFires]) (Or.inr rfl)

/-- C10.  Every success response carries an empty arbitrage list: the
handler reads the `arbitrage` property off the scrape result, which the
scraper never produces, and never invokes `findArbitrage`. -/
theorem response_arbitrage_always_empty (inp : PipelineInput)
    (ls : List (String × Draft)) (csv : String) (rp : ℚ) (arb : List RawItem)
    (h : (runPOST inp).response = .ok ls csv rp arb) :
    arb = [] ∧ .findArbitrageCall ∉ (runPOST inp).calls := by
  rcases inp with ⟨ur, crew, analyze, sd, gen⟩
  by_cases hgate : creditGateFires ur = true
  · simp [runPOST, hgate] at h
  · rcases crew with _ | c
    · simp [runPOST, runTryBlock, hgate] at h
    · by_cases htr : jsTruthyStr c = true
      · rcases gen with _ | ls₀
        · simp [runPOST, runTryBlock, hgate, htr] at h
        · constructor
          · have := (by simp [runPOST, runTryBlock, hgate, htr,
                ScrapeResult.arbitrageField] :
              (runPOST ⟨ur, .ok c, analyze, sd, .ok ls₀⟩).response =
                .ok ls₀ (generateCSV ls₀) (scrapeSimilarItems sd).recommendedPrice [])
            rw [h] at this
            exact ((ApiResponse.ok.injEq _ _ _ _ _ _ _ _).mp this.symm |>.2.2.2).symm
          · by_cases hdg : debitGuard ur = true <;>
              simp [runPOST, runTryBlock, hgate, htr, hdg]
      · rcases analyze with _ | a
        · simp [runPOST, runTryBlock, hgate, htr] at h
        · rcases gen with _ | ls₀
          · simp [runPOST, runTryBlock, hgate, htr] at h
          · constructor
            · have := (by simp [runPOST, runTryBlock, hgate, htr,
                  ScrapeResult.arbitrageField] :
                (runPOST ⟨ur, .ok c, .ok a, sd, .ok ls₀⟩).response =
                  .ok ls₀ (generateCSV ls₀) (scrapeSimilarItems sd).recommendedPrice [])
              rw [h] at this
              exact ((ApiResponse.ok.injEq _ _ _ _ _ _ _ _).mp this.symm |>.2.2.2).symm
            · by_cases hdg : debitGuard ur = true <;>
                simp [runPOST, runTryBlock, hgate, htr, hdg]

/-- Splitting a character list at newline characters; the inverse of
joining with `\n`.  `splitNl [] = [[]]`, matching the convention that a
text with no newline is one line. -/
def splitNl : List Char → List (List Char)
  | [] => [[]]
  | c :: cs =>
    if c = '\n' then [] :: splitNl cs
    else
      match splitNl cs with
      | [] => [[c]]
      | l :: ls => (c :: l) :: ls

/-- A string with no embedded newline. -/
def strNoNl (s : String) : Prop := '\n' ∉ s.data

/-- A listings entry all of whose interpolated fields are newline-free. -/
def entryNoNl (e : String × Draft) : Prop :=
  strNoNl e.1 ∧ strNoNl e.2.title ∧ strNoNl e.2.description ∧
    strNoNl e.2.price ∧ strNoNl e.2.condition

theorem data_append (s t : String) : (s ++ t).data = s.data ++ t.data := rfl

theorem splitNl_ne_nil (cs : List Char) : splitNl cs ≠ [] := by
  induction cs with
  | nil => simp [splitNl]
  | cons c cs ih =>
    by_cases h : c = '\n'
    · simp [splitNl, h]
    · rcases hs : splitNl cs with _ | ⟨l, ls⟩
      · exact absurd hs ih
      · simp [splitNl, h, hs]

theorem splitNl_of_noNl (a : List Char) (h : '\n' ∉ a) : splitNl a = [a] := by
  induction a with
  | nil => rfl
  | cons c cs ih =>
    have hc : ¬(c = '\n') := fun hh => h (by simp [hh])
    have h2 : '\n' ∉ cs := fun hh => h (List.mem_cons_of_mem _ hh)
    simp [splitNl, hc, ih h2]

theorem splitNl_append_noNl (a rest : List Char) (h : '\n' ∉ a) :
    splitNl (a ++ '\n' :: rest) = a :: splitNl rest := by
  induction a with
  | nil => simp [splitNl]
  | cons c cs ih =>
    have hc : ¬(c = '\n') := fun hh => h (by simp [hh])
    have h2 : '\n' ∉ cs := fun hh => h (List.mem_cons_of_mem _ hh)
    simp [splitNl, hc, ih h2]

theorem splitNl_joinNl (rows : List String) (hne : rows ≠ [])
    (h : ∀ r ∈ rows, strNoNl r) :
    splitNl (joinNl rows).data = rows.map (fun r => r.data) := by
  induction rows with
  | nil => exact absurd rfl hne
  | cons s rest ih =>
    cases rest with
    | nil => simpa [joinNl] using splitNl_of_noNl s.data (h s (by simp))
    | cons r rs =>
      have hdata : (joinNl (s :: r :: rs)).data =
          s.data ++ '\n' :: (joinNl (r :: rs)).data := by
        simp [joinNl, data_append]
      rw [hdata, splitNl_append_noNl _ _ (h s (by simp)),
        ih (by simp) (fun x hx => h x (List.mem_cons_of_mem _ hx))]
      simp

instance (s : String) : Decidable (strNoNl s) := by
  unfold strNoNl; infer_instance

instance (e : String × Draft) : Decidable (entryNoNl e) := by
  unfold entryNoNl; infer_instance

theorem csvRow_noNl (e : String × Draft) (h : entryNoNl e) :
    strNoNl (csvRow e.1 e.2) := by
  rcases h with ⟨h1, h2, h3, h4, h5⟩
  have ha : ('\n' : Char) ∉ (",\"" : String).data := by decide
  have hb : ('\n' : Char) ∉ ("\",\"" : String).data := by decide
  have hc : ('\n' : Char) ∉ ("\",$" : String).data := by decide
  have hd : ('\n' : Char) ∉ ("\"" : String).data := by decide
  simp only [strNoNl, csvRow, data_append, List.mem_append, not_or] at *
  tauto

/-- C8 counterexample.  Two listings mappings holding the same
marketplace→draft entries, inserted in different orders, export to
different bytes: the CSV rows follow the insertion order of the object,
not the declared order of the marketplace set
`[ebay, amazon, facebook]` of part_013 line 48. -/
theorem csv_row_order_depends_on_insertion :
    generateCSV [("facebook", ⟨"t", "d", "9", "good"⟩),
        ("ebay", ⟨"t2", "d2", "8", "fair"⟩)] ≠
      generateCSV [("ebay", ⟨"t2", "d2", "8", "fair"⟩),
        ("facebook", ⟨"t", "d", "9", "good"⟩)] := by
  decide

/-- C8 amended.  The CSV export of a non-empty listings mapping whose
interpolated fields are newline-free splits into exactly the fixed header
line `Platform,Title,Description,Price,Condition` followed by one row per
entry in the *insertion order* of the mapping; each row wraps Title,
Description and Condition in double quotes without escaping embedded
quote or delimiter characters.  The export is a pure function of the
entry list, so repeated export of identical input is byte-identical. -/
theorem csv_lines_header_and_insertion_order (listings : List (String × Draft))
    (hne : listings ≠ []) (h : ∀ e ∈ listings, entryNoNl e) :
    splitNl (generateCSV listings).data =
      csvHeader.data :: listings.map (fun e => (csvRow e.1 e.2).data) := by
  have hdata : (generateCSV listings).data =
      csvHeader.data ++ '\n' :: (joinNl (listings.map (fun e => csvRow e.1 e.2))).data := by
    simp [generateCSV, data_append]
  rw [hdata, splitNl_append_noNl _ _ (by decide),
    splitNl_joinNl _ (by simpa using hne) ?_]
  · simp
  · intro r hr
    rcases List.mem_map.mp hr with ⟨e, he, rfl⟩
    exact csvRow_noNl e (h e he)

/-- Witness for C8 amended: a concrete two-entry export splits into the
header and its two rows in insertion order. -/
theorem csv_lines_header_and_insertion_order_witness :
    splitNl (generateCSV [("facebook", ⟨"t", "d", "9", "good"⟩),
        ("ebay", ⟨"t2", "d2", "8", "fair"⟩)]).data =
      csvHeader.data ::
        [("facebook", (⟨"t", "d", "9", "good"⟩ : Draft)),
          ("ebay", ⟨"t2", "d2", "8", "fair"⟩)].map
          (fun e => (csvRow e.1 e.2).data) :=
  csv_lines_header_and_insertion_order
    [("facebook", ⟨"t", "d", "9", "good"⟩), ("ebay", ⟨"t2", "d2", "8", "fair"⟩)]
    (by simp) (by decide)

/-- Witness for C10: a concrete successful run returns the empty
arbitrage list and never calls `findArbitrage`. -/
theorem response_arbitrage_always_empty_witness :
    ([] : List RawItem) = [] ∧
      .findArbitrageCall ∉
        (runPOST ⟨some ⟨3, "free"⟩, .ok (some "a"), .ok "a", [],
          .ok [("ebay", ⟨"t", "d", "9", "good"⟩)]⟩).calls :=
  response_arbitrage_always_empty
    ⟨some ⟨3, "free"⟩, .ok (some "a"), .ok "a", [],
      .ok [("ebay", ⟨"t", "d", "9", "good"⟩)]⟩
    [("ebay", ⟨"t", "d", "9", "good"⟩)]
    (generateCSV [("ebay", ⟨"t", "d", "9", "good"⟩)])
    (scrapeSimilarItems []).recommendedPrice []
    (by simp [runPOST, runTryBlock, creditGateFires, jsTruthyStr, debitGuard,
      ScrapeResult.arbitrageField])

end CloudCommerce
